import Mathlib

/-!
Verification of the FPL-agent transfer-suggestion backend.

This file gives a shallow embedding, in Lean 4, of the core pipeline of the
repository (backend/src): the pure scoring tools (`fpl_tools.py`), the remote
data gateway (`fpl_client.py`, with network responses supplied by an abstract
`World` and each issued request recorded in a trace), the three pipeline nodes
(`data_fetcher.py`, `analyzer.py`, `suggester.py`) and the orchestrating
workflow (`graph.py`).  Python floats are modelled as rationals, Python ints as
integers, fallible code returns `Except` with the Python exception message, and
a raised exception inside a node is modelled by the node's `except` branch
(the state update that only sets `error` and `step_completed`).
-/

namespace FPL

/-- Models CPython string conversion of a float that carries an exact
one-decimal value (the only values the repository interpolates into reason
strings): `2.9` prints as `"2.9"`, `5` prints as `"5.0"`. -/
def pyFloatRepr (q : ℚ) : String :=
  let n : ℤ := ⌊q * 10⌋
  if q < 0 then
    "-" ++ toString ((-n) / 10) ++ "." ++ toString ((-n) % 10)
  else
    toString (n / 10) ++ "." ++ toString (n % 10)

/-- Round-half-to-even on an exact rational, the tie rule of Python `round`. -/
def roundHalfEven (q : ℚ) : ℤ :=
  let f := ⌊q⌋
  let r := q - f
  if r < 1/2 then f
  else if 1/2 < r then f + 1
  else if 2 ∣ f then f else f + 1

/-- Models Python `round(x, 2)` on a value that is an exact decimal. -/
def pyRound2 (q : ℚ) : ℚ := (roundHalfEven (q * 100) : ℚ) / 100

/-- Models Python `statistics.mean` on a list of rationals. -/
def listMean (l : List ℚ) : ℚ := l.sum / l.length

/-- Player record, mirroring the pydantic `Player` model of
`backend/src/models/player.py` (the shape of every element of
`all_players` and `current_team_players` after `model_dump`). -/
structure Player where
  id : ℤ
  code : ℤ
  name : String
  web_name : String
  team : ℤ
  team_code : Option ℤ := none
  team_name : Option String := none
  position : String
  element_type : ℤ
  now_cost : ℚ
  cost_change_start : ℤ := 0
  total_points : ℤ
  points_per_game : ℚ := 0
  form : ℚ := 0
  selected_by_percent : ℚ := 0
  transfers_in_event : ℤ := 0
  transfers_out_event : ℤ := 0
  expected_goals : Option ℚ := none
  expected_assists : Option ℚ := none
  expected_goal_involvements : Option ℚ := none
  expected_goals_conceded : Option ℚ := none
  status : String := "a"
  news : Option String := none
  chance_of_playing_next_round : Option ℤ := none
deriving Repr, DecidableEq

/-- Fixture record, mirroring the pydantic `Fixture` model of
`backend/src/models/fixture.py`. -/
structure Fixture where
  id : ℤ
  event : Option ℤ := none
  team_h : ℤ
  team_a : ℤ
  team_h_name : Option String := none
  team_a_name : Option String := none
  team_h_difficulty : ℤ
  team_a_difficulty : ℤ
  finished : Bool := false
  team_h_score : Option ℤ := none
  team_a_score : Option ℤ := none
deriving Repr, DecidableEq

/-- Team pick, mirroring the pydantic `TeamPick` model. -/
structure TeamPick where
  element : ℤ
  position : ℤ
  multiplier : ℤ
  is_captain : Bool
  is_vice_captain : Bool
deriving Repr, DecidableEq

/-- Manager summary, mirroring the pydantic `TeamSummary` model. -/
structure TeamSummary where
  id : ℤ
  event : ℤ := 1
  points : ℤ := 0
  total_points : ℤ := 0
  rank : ℤ := 0
  event_transfers : ℤ := 0
  event_transfers_cost : ℤ := 0
  value : ℤ := 1000
  bank : ℤ := 0
deriving Repr, DecidableEq

/-- Team record, mirroring the pydantic `Team` model of
`backend/src/models/fixture.py`. -/
structure Team where
  id : ℤ
  name : String
  short_name : String
  strength : ℤ
  strength_overall_home : ℤ
  strength_overall_away : ℤ
  strength_attack_home : ℤ
  strength_attack_away : ℤ
  strength_defence_home : ℤ
  strength_defence_away : ℤ
deriving Repr, DecidableEq

/-- One entry of the `upcoming_fixtures` list built by
`calculate_fixture_difficulty`.  The opponent is the value of the
`team_a_name` or `team_h_name` key, which `model_dump` always populates
(possibly with `None`), so Python `fixture.get(..., "Unknown")` returns it
unchanged. -/
structure UpcomingFixture where
  opponent : Option String
  home : Bool
  difficulty : ℤ
deriving Repr, DecidableEq

/-- Result dictionary of `calculate_fixture_difficulty`. -/
structure DifficultyResult where
  avg_difficulty : ℚ
  fixtures : List UpcomingFixture
  rating : String
deriving Repr, DecidableEq

/-- The scan loop of `calculate_fixture_difficulty` (fpl_tools.py lines
26-44): walk the fixture list in order, stop once `next_n_games` entries are
collected, and keep each unfinished fixture that involves the target team. -/
def collectUpcoming (player_team_id : ℤ) (next_n_games : ℕ) :
    List Fixture → List UpcomingFixture → List UpcomingFixture
  | [], acc => acc
  | f :: rest, acc =>
    if acc.length ≥ next_n_games then acc
    else if !f.finished then
      if f.team_h = player_team_id then
        collectUpcoming player_team_id next_n_games rest
          (acc ++ [⟨f.team_a_name, true, f.team_h_difficulty⟩])
      else if f.team_a = player_team_id then
        collectUpcoming player_team_id next_n_games rest
          (acc ++ [⟨f.team_h_name, false, f.team_a_difficulty⟩])
      else collectUpcoming player_team_id next_n_games rest acc
    else collectUpcoming player_team_id next_n_games rest acc

/-- The classification chain of `calculate_fixture_difficulty` (fpl_tools.py
lines 57-62): average below 2.5 is Easy, below 3.5 Moderate, else Hard. -/
def classifyDifficulty (avg : ℚ) : String :=
  if avg < 5/2 then "Easy"
  else if avg < 7/2 then "Moderate"
  else "Hard"

/-- Embedding of `calculate_fixture_difficulty` (fpl_tools.py lines 9-68). -/
def calculate_fixture_difficulty (player_team_id : ℤ) (fixtures : List Fixture)
    (next_n_games : ℕ := 5) : DifficultyResult :=
  let upcoming := collectUpcoming player_team_id next_n_games fixtures []
  if upcoming.isEmpty then
    { avg_difficulty := 3, fixtures := [], rating := "Unknown" }
  else
    let difficulties := upcoming.map (·.difficulty)
    let avg_diff : ℚ := listMean (difficulties.map (fun d => (d : ℚ)))
    { avg_difficulty := pyRound2 avg_diff,
      fixtures := upcoming,
      rating := classifyDifficulty avg_diff }

/-- The form-classification chain of `get_player_form_score` (fpl_tools.py
lines 111-118). -/
def classifyForm (form : ℚ) : String :=
  if form ≥ 6 then "Excellent"
  else if form ≥ 4 then "Good"
  else if form ≥ 2 then "Average"
  else "Poor"

/-- Result dictionary of `get_player_form_score`. -/
structure FormResult where
  form : ℚ
  form_status : String
  form_vs_position_avg : ℚ
  points_per_game : ℚ
  ppg_vs_position_avg : ℚ
deriving Repr, DecidableEq

/-- Embedding of `get_player_form_score` (fpl_tools.py lines 71-126).  In a
`model_dump` of `Player` the `form` and `points_per_game` values are floats
and never `None`, so the None-guards of the source collapse to the identity. -/
def get_player_form_score (player : Player) (all_players : List Player) :
    FormResult :=
  let form := player.form
  let points_per_game := player.points_per_game
  let position_players := all_players.filter (·.position = player.position)
  let avg_form := if position_players.isEmpty then 0
    else listMean (position_players.map (·.form))
  let avg_ppg := if position_players.isEmpty then 0
    else listMean (position_players.map (·.points_per_game))
  { form := form,
    form_status := classifyForm form,
    form_vs_position_avg := pyRound2 (form - avg_form),
    points_per_game := points_per_game,
    ppg_vs_position_avg := pyRound2 (points_per_game - avg_ppg) }

/-- The value-classification chain of `analyze_value` (fpl_tools.py lines
149-156). -/
def classifyValue (value : ℚ) : String :=
  if value ≥ 25 then "Excellent"
  else if value ≥ 20 then "Good"
  else if value ≥ 15 then "Average"
  else "Poor"

/-- Result dictionary of `analyze_value`. -/
structure ValueResult where
  cost : ℚ
  total_points : ℤ
  points_per_million : ℚ
  value_rating : String
deriving Repr, DecidableEq

/-- Embedding of `analyze_value` (fpl_tools.py lines 129-163): cost is the
price in tenths divided by 10, and the division computing points per million
is guarded by the `cost == 0` test. -/
def analyze_value (player : Player) : ValueResult :=
  let cost : ℚ := player.now_cost / 10
  let total_points := player.total_points
  let value : ℚ := if cost = 0 then 0 else (total_points : ℚ) / cost
  { cost := cost,
    total_points := total_points,
    points_per_million := pyRound2 value,
    value_rating := classifyValue value }

/-- The reason list `find_underperformers` (fpl_tools.py lines 183-199)
builds for one player: a poor-form reason, then a status reason, then an
injury-doubt reason. -/
def underperformerReasons (threshold_form : ℚ) (player : Player) :
    List String :=
  let form := player.form
  let r1 := if form < threshold_form
    then ["Poor form (" ++ pyFloatRepr form ++ ")"] else []
  let r2 := if player.status = "i" then ["Injured"]
    else if player.status = "s" then ["Suspended"]
    else if player.status = "u" then ["Unavailable"]
    else []
  let r3 := match player.chance_of_playing_next_round with
    | some c => if c < 75 then ["Injury doubt"] else []
    | none => []
  r1 ++ r2 ++ r3

/-- Embedding of `find_underperformers` (fpl_tools.py lines 166-207): keep
each squad player whose reason list is non-empty, paired with the reasons. -/
def find_underperformers (team_players : List Player)
    (threshold_form : ℚ := 3) : List (Player × List String) :=
  team_players.filterMap (fun p =>
    let reasons := underperformerReasons threshold_form p
    if reasons.isEmpty then none else some (p, reasons))

/-- The composite sort key of `find_top_performers_by_position`
(fpl_tools.py lines 245-251). -/
def performerScore (p : Player) : ℚ := p.form * p.points_per_game

/-- Embedding of `find_top_performers_by_position` (fpl_tools.py lines
210-255): filter by position, budget and availability, stable-sort by
form times points-per-game descending, return the first `limit`. -/
def find_top_performers_by_position (all_players : List Player)
    (position : String) (max_cost : ℚ) (limit : ℕ := 10) : List Player :=
  let candidates := all_players.filter (fun p =>
    p.position = position ∧ ¬(p.now_cost / 10 > max_cost) ∧ p.status = "a")
  (candidates.mergeSort (fun a b => performerScore b ≤ performerScore a)).take limit

/-- One raw player element of the provider's `bootstrap-static` response,
restricted to the keys `FPLClient.get_all_players` reads. -/
structure Element where
  id : ℤ
  code : ℤ
  first_name : String
  second_name : String
  web_name : String
  team : ℤ
  element_type : ℤ
  now_cost : ℚ
  cost_change_start : ℤ := 0
  total_points : ℤ
  points_per_game : ℚ := 0
  form : ℚ := 0
  selected_by_percent : ℚ := 0
  transfers_in_event : ℤ := 0
  transfers_out_event : ℤ := 0
  expected_goals : Option ℚ := none
  expected_assists : Option ℚ := none
  expected_goal_involvements : Option ℚ := none
  expected_goals_conceded : Option ℚ := none
  status : String := "a"
  news : String := ""
  chance_of_playing_next_round : Option ℤ := none
deriving Repr, DecidableEq

/-- One raw team object of the `bootstrap-static` response (the fields of the
pydantic `Team` model plus the `code` used for player badges). -/
structure TeamData where
  id : ℤ
  name : String
  code : ℤ
  short_name : String
  strength : ℤ := 0
  strength_overall_home : ℤ := 0
  strength_overall_away : ℤ := 0
  strength_attack_home : ℤ := 0
  strength_attack_away : ℤ := 0
  strength_defence_home : ℤ := 0
  strength_defence_away : ℤ := 0
deriving Repr, DecidableEq

/-- One gameweek event of the `bootstrap-static` response, restricted to the
keys `FPLClient.get_current_gameweek` reads. -/
structure BootstrapEvent where
  id : ℤ
  is_current : Bool
deriving Repr, DecidableEq

/-- The parsed `bootstrap-static` response body. -/
structure Bootstrap where
  elements : List Element
  teams : List TeamData
  events : List BootstrapEvent
deriving Repr, DecidableEq

/-- An uninterpreted JSON document that the gateway passes through
unchanged (league standings, manager leagues, element summaries). -/
structure JsonBlob where
  blobId : ℕ
deriving Repr, DecidableEq

/-- The empty JSON object default used by `data.get("leagues", ...)`. -/
def emptyJson : JsonBlob := ⟨0⟩

/-- The parsed `entry/` response body, restricted to the keys
`FPLClient.get_team_summary` and `get_manager_leagues` read; `none` models a
missing key. -/
structure EntryData where
  id : ℤ
  current_event : Option ℤ := none
  summary_event_points : Option ℤ := none
  summary_overall_points : Option ℤ := none
  summary_overall_rank : Option ℤ := none
  event_transfers : Option ℤ := none
  event_transfers_cost : Option ℤ := none
  last_deadline_value : Option ℤ := none
  value : Option ℤ := none
  team_value : Option ℤ := none
  last_deadline_bank : Option ℤ := none
  bank : Option ℤ := none
  leagues : Option JsonBlob := none
deriving Repr, DecidableEq

/-- The parsed `my-team/` response body (pydantic `UserTeam`). -/
structure UserTeamData where
  picks : List TeamPick
  chips : List String := []
  transfers : Option JsonBlob := none
deriving Repr, DecidableEq

/-- One outbound network request of the gateway, identified by the endpoint
hit.  Every client method records the requests it issues in a trace. -/
inductive Endpoint
  | bootstrapStatic
  | me
  | myTeam (manager_id : ℤ)
  | entry (manager_id : ℤ)
  | leaguesClassic (league_id page_new_entries page_standings : ℤ)
  | picks (manager_id gameweek : ℤ)
  | fixturesEp (eventQuery : Option ℤ)
  | elementSummary (player_id : ℤ)
deriving Repr, DecidableEq

/-- One raw fixture object of the `fixtures/` response, before the client
attaches team names. -/
structure FixtureData where
  id : ℤ
  event : Option ℤ := none
  team_h : ℤ
  team_a : ℤ
  team_h_difficulty : ℤ
  team_a_difficulty : ℤ
  finished : Bool := false
  team_h_score : Option ℤ := none
  team_a_score : Option ℤ := none
deriving Repr, DecidableEq

/-- The provider side of one pipeline run: the response (or transport/HTTP
error, carried as the Python exception text) for each endpoint.  A `World` is
one consistent snapshot of the remote API. -/
structure World where
  bootstrapResp : Except String Bootstrap
  meResp : Except String ℤ
  myTeamResp : ℤ → Except String UserTeamData
  entryResp : ℤ → Except String EntryData
  leagueResp : ℤ → ℤ → ℤ → Except String JsonBlob
  picksResp : ℤ → ℤ → Except String (List TeamPick)
  fixturesResp : Option ℤ → Except String (List FixtureData)
  elementSummaryResp : ℤ → Except String JsonBlob

/-- Python truthy `or` on an optional integer: `a or b` falls through to `b`
when `a` is missing, `None` or `0`. -/
def pyOrInt : Option ℤ → ℤ → ℤ
  | some v, b => if v = 0 then b else v
  | none, b => b

/-- Embedding of `FPLClient._get_position_name`. -/
def getPositionName (element_type : ℤ) : String :=
  if element_type = 1 then "GKP"
  else if element_type = 2 then "DEF"
  else if element_type = 3 then "MID"
  else if element_type = 4 then "FWD"
  else "UNK"

/-- The per-element fan-out of `FPLClient.get_all_players` (fpl_client.py
lines 90-121): build one `Player` from a raw element and the bootstrap team
table. -/
def mkPlayerFromElement (teams : List TeamData) (e : Element) : Player :=
  let team_info := teams.find? (·.id = e.team)
  { id := e.id, code := e.code,
    name := e.first_name ++ " " ++ e.second_name, web_name := e.web_name,
    team := e.team,
    team_code := team_info.map (·.code), team_name := team_info.map (·.name),
    position := getPositionName e.element_type, element_type := e.element_type,
    now_cost := e.now_cost, cost_change_start := e.cost_change_start,
    total_points := e.total_points, points_per_game := e.points_per_game,
    form := e.form, selected_by_percent := e.selected_by_percent,
    transfers_in_event := e.transfers_in_event,
    transfers_out_event := e.transfers_out_event,
    expected_goals := e.expected_goals, expected_assists := e.expected_assists,
    expected_goal_involvements := e.expected_goal_involvements,
    expected_goals_conceded := e.expected_goals_conceded,
    status := e.status, news := some e.news,
    chance_of_playing_next_round := e.chance_of_playing_next_round }

/-- The `Team(**team_data)` construction of `FPLClient.get_teams`. -/
def mkTeam (t : TeamData) : Team :=
  { id := t.id, name := t.name, short_name := t.short_name,
    strength := t.strength,
    strength_overall_home := t.strength_overall_home,
    strength_overall_away := t.strength_overall_away,
    strength_attack_home := t.strength_attack_home,
    strength_attack_away := t.strength_attack_away,
    strength_defence_home := t.strength_defence_home,
    strength_defence_away := t.strength_defence_away }

/-- Embedding of `FPLClient.get_bootstrap_static`: one request to the
`bootstrap-static/` endpoint. -/
def get_bootstrap_static (w : World) :
    Except String Bootstrap × List Endpoint :=
  (w.bootstrapResp, [Endpoint.bootstrapStatic])

/-- Embedding of `FPLClient.get_all_players`: one bootstrap request, fanned
out into one `Player` record per raw element. -/
def get_all_players (w : World) :
    Except String (List Player) × List Endpoint :=
  match get_bootstrap_static w with
  | (.error e, tr) => (.error e, tr)
  | (.ok data, tr) =>
    (.ok (data.elements.map (mkPlayerFromElement data.teams)), tr)

/-- Embedding of `FPLClient.get_teams`: one bootstrap request. -/
def get_teams (w : World) : Except String (List Team) × List Endpoint :=
  match get_bootstrap_static w with
  | (.error e, tr) => (.error e, tr)
  | (.ok data, tr) => (.ok (data.teams.map mkTeam), tr)

/-- Embedding of `FPLClient.get_current_gameweek` (fpl_client.py lines
138-149): one bootstrap request; the id of the first event flagged
`is_current`, else `1`. -/
def get_current_gameweek (w : World) : Except String ℤ × List Endpoint :=
  match get_bootstrap_static w with
  | (.error e, tr) => (.error e, tr)
  | (.ok data, tr) =>
    (.ok (match data.events.find? (·.is_current) with
          | some event => event.id
          | none => 1), tr)

/-- Embedding of `FPLClient.validate_cookie`: one probe request to `me/`;
any exception yields `false`, otherwise the result is the status-200 test. -/
def validate_cookie (w : World) : Bool × List Endpoint :=
  match w.meResp with
  | .error _ => (false, [Endpoint.me])
  | .ok status_code => (status_code = 200, [Endpoint.me])

/-- Embedding of `FPLClient.get_my_team`: raises before any request when no
cookie is held, otherwise one request to `my-team/`. -/
def get_my_team (w : World) (cookie : Option String) (manager_id : ℤ) :
    Except String UserTeamData × List Endpoint :=
  match cookie with
  | none => (.error "Authentication required for this endpoint", [])
  | some _ => (w.myTeamResp manager_id, [Endpoint.myTeam manager_id])

/-- Embedding of `FPLClient.get_team_summary` (fpl_client.py lines 174-221):
one request to `entry/`, with the truthy-`or` fallback chains for the team
value and bank fields. -/
def get_team_summary (w : World) (manager_id : ℤ) :
    Except String TeamSummary × List Endpoint :=
  match w.entryResp manager_id with
  | .error e => (.error e, [Endpoint.entry manager_id])
  | .ok d =>
    let team_value := pyOrInt d.last_deadline_value
      (pyOrInt d.value (pyOrInt d.team_value 1000))
    let bank := pyOrInt d.last_deadline_bank (pyOrInt d.bank 0)
    (.ok { id := d.id, event := d.current_event.getD 1,
           points := d.summary_event_points.getD 0,
           total_points := d.summary_overall_points.getD 0,
           rank := d.summary_overall_rank.getD 0,
           event_transfers := d.event_transfers.getD 0,
           event_transfers_cost := d.event_transfers_cost.getD 0,
           value := team_value, bank := bank },
     [Endpoint.entry manager_id])

/-- Embedding of `FPLClient.get_manager_leagues`: one request to `entry/`. -/
def get_manager_leagues (w : World) (manager_id : ℤ) :
    Except String JsonBlob × List Endpoint :=
  match w.entryResp manager_id with
  | .error e => (.error e, [Endpoint.entry manager_id])
  | .ok d => (.ok (d.leagues.getD emptyJson), [Endpoint.entry manager_id])

/-- Embedding of `FPLClient.get_league_standings`: one request to the
classic-league standings endpoint. -/
def get_league_standings (w : World) (league_id : ℤ)
    (page_new_entries : ℤ := 1) (page_standings : ℤ := 1) :
    Except String JsonBlob × List Endpoint :=
  (w.leagueResp league_id page_new_entries page_standings,
   [Endpoint.leaguesClassic league_id page_new_entries page_standings])

/-- Embedding of `FPLClient.get_team_picks`: one request to the per-gameweek
picks endpoint. -/
def get_team_picks (w : World) (manager_id gameweek : ℤ) :
    Except String (List TeamPick) × List Endpoint :=
  match w.picksResp manager_id gameweek with
  | .error e => (.error e, [Endpoint.picks manager_id gameweek])
  | .ok picks => (.ok picks, [Endpoint.picks manager_id gameweek])

/-- The Python truthiness test `if gameweek:` of `FPLClient.get_fixtures`:
the event query parameter is attached only for a non-`None`, non-zero
gameweek. -/
def fixturesQuery : Option ℤ → Option ℤ
  | some g => if g = 0 then none else some g
  | none => none

/-- Embedding of `FPLClient.get_fixtures` (fpl_client.py lines 285-318): one
request to `fixtures/`, then a full `get_teams` call (a second bootstrap
request) to attach team names to each fixture. -/
def get_fixtures (w : World) (gameweek : Option ℤ := none) :
    Except String (List Fixture) × List Endpoint :=
  let q := fixturesQuery gameweek
  match w.fixturesResp q with
  | .error e => (.error e, [Endpoint.fixturesEp q])
  | .ok fixtures_data =>
    match get_teams w with
    | (.error e, tr) => (.error e, Endpoint.fixturesEp q :: tr)
    | (.ok teams, tr) =>
      let teams_map := fun tid => (teams.find? (·.id = tid)).map (·.name)
      (.ok (fixtures_data.map (fun fd =>
        { id := fd.id, event := fd.event,
          team_h := fd.team_h, team_a := fd.team_a,
          team_h_name := teams_map fd.team_h,
          team_a_name := teams_map fd.team_a,
          team_h_difficulty := fd.team_h_difficulty,
          team_a_difficulty := fd.team_a_difficulty,
          finished := fd.finished,
          team_h_score := fd.team_h_score,
          team_a_score := fd.team_a_score })),
       Endpoint.fixturesEp q :: tr)

/-- Embedding of `FPLClient.get_player_summary`: one request to the
element-summary endpoint. -/
def get_player_summary (w : World) (player_id : ℤ) :
    Except String JsonBlob × List Endpoint :=
  (w.elementSummaryResp player_id, [Endpoint.elementSummary player_id])

/-- Python `range(a, b)` over integers. -/
def pyRange (a b : ℤ) : List ℤ :=
  (List.range (b - a).toNat).map (fun i => a + (i : ℤ))

/-- The sequential per-gameweek fixture loop of `data_fetcher_node`
(data_fetcher.py lines 42-45), generalised to any gameweek list: call
`get_fixtures` for each gameweek in order, concatenating the results, and
stop at the first error. -/
def fetchFixturesSeq (w : World) : List ℤ →
    Except String (List Fixture) × List Endpoint
  | [] => (.ok [], [])
  | g :: rest =>
    match get_fixtures w (some g) with
    | (.error e, tr) => (.error e, tr)
    | (.ok fs, tr) =>
      match fetchFixturesSeq w rest with
      | (.error e, tr2) => (.error e, tr ++ tr2)
      | (.ok rest_fs, tr2) => (.ok (fs ++ rest_fs), tr ++ tr2)

/-- One transfer suggestion parsed from the LLM's JSON reply
(suggester.py).  `none` in an input field models a missing JSON key; the
three trailing fields are the enrichment the suggester adds in place. -/
structure Suggestion where
  player_out_id : Option ℤ := none
  player_out_name : Option String := none
  player_in_id : Option ℤ := none
  player_in_name : Option String := none
  priority : Option ℤ := none
  expected_points_gain : Option ℚ := none
  rationale : Option String := none
  cost_change : Option ℚ := none
  captain_id : Option ℤ := none
  captain_name : Option String := none
  vice_captain_id : Option ℤ := none
  vice_captain_name : Option String := none
  player_out : Option Player := none
  player_in : Option Player := none
  bank_after : Option ℚ := none
deriving Repr, DecidableEq

/-- The `form_analysis` entry the analyzer produces for one squad player. -/
structure PlayerAnalysis where
  player_id : ℤ
  name : String
  position : String
  form : FormResult
  fixtures : DifficultyResult
  value : ValueResult
deriving Repr, DecidableEq

/-- The `form_analysis` value set by the analyzer node. -/
structure FormAnalysis where
  player_analyses : List PlayerAnalysis
  underperformers : List (Player × List String)
deriving Repr, DecidableEq

/-- The `fixture_analysis` value set by the analyzer node. -/
structure FixtureAnalysis where
  hard_fixtures : ℕ
  easy_fixtures : ℕ
deriving Repr, DecidableEq

/-- The `value_analysis` value set by the analyzer node. -/
structure ValueAnalysis where
  poor_value_count : ℕ
  avg_points_per_million : ℚ
deriving Repr, DecidableEq

/-- The `AgentState` TypedDict of `backend/src/agents/state.py`, the mutable
accumulator threaded through the three pipeline nodes. -/
structure AgentState where
  manager_id : ℤ
  gameweek : ℤ
  fpl_cookie : String
  current_team_picks : Option (List TeamPick)
  current_team_players : Option (List Player)
  all_players : Option (List Player)
  fixtures : Option (List Fixture)
  teams : Option (List Team)
  team_summary : Option TeamSummary
  form_analysis : Option FormAnalysis
  fixture_analysis : Option FixtureAnalysis
  value_analysis : Option ValueAnalysis
  team_weaknesses : Option (List String)
  transfer_suggestions : List Suggestion
  feedback : Option String
  current_suggestions : Option (List Suggestion)
  step_completed : String
  error : Option String

/-- The state update every node returns from its `except` branch: only the
`error` and `step_completed` keys are merged back into the state. -/
def applyError (s : AgentState) (msg tag : String) : AgentState :=
  { s with error := some msg, step_completed := tag }

/-- The initial state dictionary built by `run_suggestion_workflow`
(graph.py lines 63-82). -/
def initialState (manager_id : ℤ) (fpl_cookie : String)
    (feedback : Option String) (current_suggestions : Option (List Suggestion)) :
    AgentState :=
  { manager_id := manager_id, gameweek := 0, fpl_cookie := fpl_cookie,
    feedback := feedback, current_suggestions := current_suggestions,
    current_team_picks := none, current_team_players := none,
    all_players := none, fixtures := none, teams := none, team_summary := none,
    form_analysis := none, fixture_analysis := none, value_analysis := none,
    team_weaknesses := none, transfer_suggestions := [],
    error := none, step_completed := "init" }

/-- Embedding of `data_fetcher_node` (data_fetcher.py): the sequence of
gateway calls of the try block; the first error lands in the `except` branch,
which tags the state `data_fetch_failed` with the message
`Failed to fetch data: ...`. -/
def data_fetcher_node (w : World) (s : AgentState) : AgentState :=
  match (get_all_players w).1 with
  | .error e => applyError s ("Failed to fetch data: " ++ e) "data_fetch_failed"
  | .ok all_players =>
  match (get_teams w).1 with
  | .error e => applyError s ("Failed to fetch data: " ++ e) "data_fetch_failed"
  | .ok teams =>
  match (get_current_gameweek w).1 with
  | .error e => applyError s ("Failed to fetch data: " ++ e) "data_fetch_failed"
  | .ok current_gameweek =>
  match (get_team_summary w s.manager_id).1 with
  | .error e => applyError s ("Failed to fetch data: " ++ e) "data_fetch_failed"
  | .ok team_summary =>
  match (get_team_picks w s.manager_id current_gameweek).1 with
  | .error e => applyError s ("Failed to fetch data: " ++ e) "data_fetch_failed"
  | .ok team_picks =>
  let player_ids := team_picks.map (·.element)
  let current_team_players := all_players.filter (fun p => p.id ∈ player_ids)
  match (fetchFixturesSeq w
      (pyRange current_gameweek (min (current_gameweek + 6) 39))).1 with
  | .error e => applyError s ("Failed to fetch data: " ++ e) "data_fetch_failed"
  | .ok fixtures =>
    { s with
      all_players := some all_players, teams := some teams,
      current_team_picks := some team_picks,
      current_team_players := some current_team_players,
      fixtures := some fixtures, team_summary := some team_summary,
      gameweek := current_gameweek,
      step_completed := "data_fetch", error := none }

/-- The Python message of a TypeError raised by iterating `None`. -/
def noneNotIterable : String := "\x27NoneType\x27 object is not iterable"

/-- The Python message of a TypeError raised by subscripting `None`. -/
def noneNotSubscriptable : String := "\x27NoneType\x27 object is not subscriptable"

/-- Embedding of `analyzer_node` (analyzer.py).  With the squad player list
missing the per-player loop raises immediately; with an empty squad the loop
is skipped and the `avg_points_per_million` division raises
`ZeroDivisionError`; with the full-player or fixture list missing the first
tool call raises while iterating `None`.  Any exception lands in the `except`
branch tagging the state `analysis_failed`. -/
def analyzer_node (s : AgentState) : AgentState :=
  match s.current_team_players with
  | none => applyError s ("Analysis failed: " ++ noneNotIterable) "analysis_failed"
  | some current_team_players =>
  if current_team_players.isEmpty then
    applyError s "Analysis failed: division by zero" "analysis_failed"
  else
  match s.all_players with
  | none => applyError s ("Analysis failed: " ++ noneNotIterable) "analysis_failed"
  | some all_players =>
  match s.fixtures with
  | none => applyError s ("Analysis failed: " ++ noneNotIterable) "analysis_failed"
  | some fixtures =>
    let player_analyses : List PlayerAnalysis :=
      current_team_players.map (fun player =>
        { player_id := player.id, name := player.web_name,
          position := player.position,
          form := get_player_form_score player all_players,
          fixtures := calculate_fixture_difficulty player.team fixtures 5,
          value := analyze_value player })
    let underperformers := find_underperformers current_team_players 3
    let weaknesses1 := if underperformers.length > 0 then
        [toString underperformers.length ++ " players with poor form or injuries"]
      else []
    let hard_fixtures := player_analyses.filter (·.fixtures.rating = "Hard")
    let weaknesses2 := if hard_fixtures.length ≥ 3 then
        [toString hard_fixtures.length ++ " players facing difficult fixtures"]
      else []
    let poor_value := player_analyses.filter (fun p =>
        p.value.value_rating = "Poor" ∨ p.value.value_rating = "Average")
    let weaknesses3 := if poor_value.length ≥ 4 then
        [toString poor_value.length ++ " players with poor value for money"]
      else []
    let form_analysis : FormAnalysis :=
      { player_analyses := player_analyses,
        underperformers := underperformers }
    let fixture_analysis : FixtureAnalysis :=
      { hard_fixtures := hard_fixtures.length,
        easy_fixtures :=
          (player_analyses.filter (·.fixtures.rating = "Easy")).length }
    let value_analysis : ValueAnalysis :=
      { poor_value_count := poor_value.length,
        avg_points_per_million :=
          (player_analyses.map (·.value.points_per_million)).sum
            / player_analyses.length }
    { s with
      form_analysis := some form_analysis,
      fixture_analysis := some fixture_analysis,
      value_analysis := some value_analysis,
      team_weaknesses := some (weaknesses1 ++ weaknesses2 ++ weaknesses3),
      step_completed := "analysis", error := none }

/-- The validation filter of `suggester_node` (suggester.py lines 221-231):
drop every parsed suggestion whose `player_in_id` is the id of a current
squad member (bench included); a missing `player_in_id` is not in the id set
and is kept. -/
def validateSuggestions (current_squad_ids : List ℤ)
    (suggestions : List Suggestion) : List Suggestion :=
  suggestions.filter (fun s =>
    match s.player_in_id with
    | some i => decide (i ∉ current_squad_ids)
    | none => true)

/-- The in-place enrichment of one surviving suggestion (suggester.py lines
234-247): look the outgoing and incoming player up in `all_players` and, when
both are found, attach them together with the post-transfer bank.  An
`.error` carries the Python exception text: iterating a `None` player list,
or a KeyError for a missing suggestion key (only hit once the lookup
generator actually iterates, so never on an empty player list). -/
def enhanceOne (all_players : Option (List Player)) (budget_available : ℚ)
    (suggestion : Suggestion) : Except String Suggestion :=
  match all_players with
  | none => .error noneNotIterable
  | some ps =>
    match ps with
    | [] => .ok suggestion
    | _ :: _ =>
      match suggestion.player_out_id with
      | none => .error "\x27player_out_id\x27"
      | some out_id =>
        let player_out := ps.find? (·.id = out_id)
        match suggestion.player_in_id with
        | none => .error "\x27player_in_id\x27"
        | some in_id =>
          let player_in := ps.find? (·.id = in_id)
          match player_out, player_in with
          | some po, some pi2 =>
            match suggestion.cost_change with
            | none => .error "\x27cost_change\x27"
            | some cc =>
              .ok { suggestion with
                    player_out := some po, player_in := some pi2,
                    bank_after := some (budget_available - cc) }
          | _, _ => .ok suggestion

/-- The two external effects of `suggester_node` that the embedding leaves
abstract: the `ChatOpenAI(...)` construction, the `llm.ainvoke` call (its
reply text), and the result of stripping the fenced code block and running
`json.loads` plus `.get("suggestions", [])` on the reply (an `.error` is a
`json.JSONDecodeError`). -/
structure LLMOracle where
  initResult : Except String Unit
  invokeResult : Except String String
  parseResult : Except String (List Suggestion)

/-- Embedding of `suggester_node` (suggester.py lines 50-270), with the
exception points in Python evaluation order: the LLM construction, the squad
iteration (line 79), the bank subscript (line 81), the underperformer
subscript (line 84), iterating a `None` player pool inside the
replacement-candidate loop (only entered for a non-empty underperformer
list), joining `None` weaknesses into the prompt (line 164), the LLM call,
the JSON parse (its own `except` branch with the distinct
`Failed to parse suggestions` message), and the enrichment loop; every other
exception lands in the outer `except` branch with `Suggestion failed: ...`
and tag `suggestion_failed`. -/
def suggester_node (o : LLMOracle) (s : AgentState) : AgentState :=
  match o.initResult with
  | .error m => applyError s ("Suggestion failed: " ++ m) "suggestion_failed"
  | .ok _ =>
  match s.current_team_players with
  | none => applyError s ("Suggestion failed: " ++ noneNotIterable)
      "suggestion_failed"
  | some current_team_players =>
  let current_squad_ids := current_team_players.map (·.id)
  match s.team_summary with
  | none => applyError s ("Suggestion failed: " ++ noneNotSubscriptable)
      "suggestion_failed"
  | some team_summary =>
  let budget_available : ℚ := (team_summary.bank : ℚ) / 10
  match s.form_analysis with
  | none => applyError s ("Suggestion failed: " ++ noneNotSubscriptable)
      "suggestion_failed"
  | some form_analysis =>
  let underperformers := form_analysis.underperformers.take 5
  if s.all_players.isNone && !underperformers.isEmpty then
    applyError s ("Suggestion failed: " ++ noneNotIterable) "suggestion_failed"
  else
  match s.team_weaknesses with
  | none => applyError s ("Suggestion failed: " ++ noneNotIterable)
      "suggestion_failed"
  | some _ =>
  match o.invokeResult with
  | .error m => applyError s ("Suggestion failed: " ++ m) "suggestion_failed"
  | .ok _ =>
  match o.parseResult with
  | .error m => applyError s ("Failed to parse suggestions: " ++ m)
      "suggestion_failed"
  | .ok parsed =>
  let valid_suggestions := validateSuggestions current_squad_ids parsed
  match valid_suggestions.mapM (enhanceOne s.all_players budget_available) with
  | .error m => applyError s ("Suggestion failed: " ++ m) "suggestion_failed"
  | .ok suggestions =>
    { s with
      transfer_suggestions := suggestions,
      step_completed := "suggestion", error := none }

/-- State after the fetch node, for one run started by
`run_suggestion_workflow`. -/
def fetchState (w : World) (manager_id : ℤ) (fpl_cookie : String)
    (feedback : Option String) (cs : Option (List Suggestion)) : AgentState :=
  data_fetcher_node w (initialState manager_id fpl_cookie feedback cs)

/-- State after the analyzer node (the graph runs it unconditionally after
the fetch node). -/
def analyzeState (w : World) (manager_id : ℤ) (fpl_cookie : String)
    (feedback : Option String) (cs : Option (List Suggestion)) : AgentState :=
  analyzer_node (fetchState w manager_id fpl_cookie feedback cs)

/-- State after the suggester node (the graph runs it unconditionally after
the analyzer node); this is the terminal state of `graph.ainvoke`. -/
def suggestState (w : World) (o : LLMOracle) (manager_id : ℤ)
    (fpl_cookie : String) (feedback : Option String)
    (cs : Option (List Suggestion)) : AgentState :=
  suggester_node o (analyzeState w manager_id fpl_cookie feedback cs)

/-- The dictionary `run_suggestion_workflow` returns; `none` models an
absent key. -/
structure WorkflowResult where
  success : Bool
  error : Option String := none
  suggestions : Option (List Suggestion) := none
  team_summary : Option TeamSummary := none
  team_weaknesses : Option (List String) := none
  gameweek : Option ℤ := none
deriving Repr, DecidableEq

/-- Embedding of `run_suggestion_workflow` (graph.py lines 43-114): run the
three nodes in the fixed graph order and post-process the terminal state;
`if result.get("error")` is a Python truthiness test, so an empty error
string would count as success. -/
def run_suggestion_workflow (w : World) (o : LLMOracle) (manager_id : ℤ)
    (fpl_cookie : String) (feedback : Option String := none)
    (current_suggestions : Option (List Suggestion) := none) :
    WorkflowResult :=
  let result := suggestState w o manager_id fpl_cookie feedback
    current_suggestions
  match result.error with
  | some e =>
    if e = "" then
      { success := true, suggestions := some result.transfer_suggestions,
        team_summary := result.team_summary,
        team_weaknesses := result.team_weaknesses,
        gameweek := some result.gameweek }
    else
      { success := false, error := some e }
  | none =>
    { success := true, suggestions := some result.transfer_suggestions,
      team_summary := result.team_summary,
      team_weaknesses := result.team_weaknesses,
      gameweek := some result.gameweek }

/-- The five derived fields that claim C3 is about: the three analysis
results, the weakness list and the suggestion list. -/
def derivedFields (s : AgentState) :
    Option FormAnalysis × Option FixtureAnalysis × Option ValueAnalysis ×
    Option (List String) × List Suggestion :=
  (s.form_analysis, s.fixture_analysis, s.value_analysis,
   s.team_weaknesses, s.transfer_suggestions)

/-- A concrete squad player used to instantiate theorems: every field the
claims do not fix takes the pydantic default. -/
def mkTestPlayer (pid : ℤ) (form : ℚ) (status : String) : Player :=
  { id := pid, code := pid, name := "P", web_name := "P", team := 1,
    position := "MID", element_type := 3, now_cost := 50, total_points := 0,
    form := form, status := status }

/-- A provider snapshot whose bootstrap request fails with a transport
error, so the fetch stage fails. -/
def failWorld : World :=
  { bootstrapResp := .error "boom",
    meResp := .error "boom",
    myTeamResp := fun _ => .error "boom",
    entryResp := fun _ => .error "boom",
    leagueResp := fun _ _ _ => .error "boom",
    picksResp := fun _ _ => .error "boom",
    fixturesResp := fun _ => .error "boom",
    elementSummaryResp := fun _ => .error "boom" }

/-- A concrete LLM oracle: construction succeeds, the call and the parse
fail (they are never reached in the runs the witnesses examine). -/
def stubOracle : LLMOracle :=
  { initResult := .ok (),
    invokeResult := .error "no llm",
    parseResult := .error "bad json" }

/-- Total order on the difficulty buckets: Easy below Moderate below Hard. -/
def ratingRank : String → ℕ
  | "Easy" => 0
  | "Moderate" => 1
  | _ => 2

/-- A concrete zero-cost player. -/
def freePlayer : Player :=
  { id := 9, code := 9, name := "Z", web_name := "Z", team := 1,
    position := "FWD", element_type := 4, now_cost := 0, total_points := 12 }

/-- A concrete healthy provider snapshot used by witnesses: every endpoint
responds, the fixtures list is empty, and one event is current. -/
def sampleWorld : World :=
  { bootstrapResp := .ok
      { elements := [],
        teams := [{ id := 1, name := "Arsenal", code := 3,
                    short_name := "ARS" }],
        events := [{ id := 7, is_current := true }] },
    meResp := .ok 200,
    myTeamResp := fun _ => .ok { picks := [] },
    entryResp := fun mid => .ok { id := mid },
    leagueResp := fun _ _ _ => .ok ⟨1⟩,
    picksResp := fun _ _ => .ok [],
    fixturesResp := fun _ => .ok [],
    elementSummaryResp := fun _ => .ok ⟨2⟩ }

/-- A bootstrap snapshot in which no event is flagged current. -/
def noCurrentBootstrap : Bootstrap :=
  { elements := [],
    teams := [{ id := 1, name := "Arsenal", code := 3, short_name := "ARS" }],
    events := [{ id := 7, is_current := false }] }

/-- A healthy provider snapshot whose bootstrap carries no current event. -/
def noCurrentWorld : World :=
  { sampleWorld with bootstrapResp := .ok noCurrentBootstrap }

/-- A concrete 15-man squad: six players with form 2 (below the 3.0
threshold) and nine healthy players with form 5. -/
def c9Squad : List Player :=
  (List.range 6).map (fun i => mkTestPlayer i 2 "a") ++
  (List.range 9).map (fun i => mkTestPlayer (6 + i) 5 "a")

/-- A concrete post-fetch state holding the 15-man squad above. -/
def c9State : AgentState :=
  { initialState 1 "c" none none with
    current_team_players := some c9Squad,
    all_players := some [], fixtures := some [] }

/-- Concrete suggestions: one proposing an incoming player already in the
squad, two proposing new players. -/
def sGood1 : Suggestion := { player_out_id := some 1, player_in_id := some 100 }

/-- A suggestion whose incoming player occupies squad slot 3. -/
def sBad : Suggestion := { player_out_id := some 2, player_in_id := some 3 }

/-- A second clean suggestion. -/
def sGood2 : Suggestion := { player_out_id := some 4, player_in_id := some 200 }

/-- The scan loop collects nothing from a fixture list in which every
fixture is finished or does not involve the target team. -/
theorem collectUpcoming_eq_acc (tid : ℤ) (n : ℕ) (fxs : List Fixture)
    (acc : List UpcomingFixture)
    (h : ∀ f ∈ fxs, f.finished = true ∨ (f.team_h ≠ tid ∧ f.team_a ≠ tid)) :
    collectUpcoming tid n fxs acc = acc := by
  induction fxs generalizing acc with
  | nil => rfl
  | cons f rest ih =>
    have hrest : ∀ g ∈ rest, g.finished = true ∨ (g.team_h ≠ tid ∧ g.team_a ≠ tid) :=
      fun g hg => h g (List.mem_cons_of_mem _ hg)
    have hf := h f (List.mem_cons_self _ _)
    unfold collectUpcoming
    split
    · rfl
    · rcases hf with hfin | ⟨hh, ha⟩
      · simp [hfin, ih _ hrest]
      · simp [hh, ha, ih _ hrest]

/-- C7: for every fixture list containing no unfinished fixture involving
the target team (and any window size), `calculate_fixture_difficulty`
returns the neutral default: average difficulty 3.0, rating "Unknown", and
an empty upcoming-fixtures list. -/
theorem no_unfinished_fixtures_unknown (tid : ℤ) (fxs : List Fixture) (n : ℕ)
    (h : ∀ f ∈ fxs, f.finished = true ∨ (f.team_h ≠ tid ∧ f.team_a ≠ tid)) :
    calculate_fixture_difficulty tid fxs n =
      { avg_difficulty := 3, fixtures := [], rating := "Unknown" } := by
  unfold calculate_fixture_difficulty
  rw [collectUpcoming_eq_acc tid n fxs [] h]
  rfl

/-- Witness for C7 at a concrete fixture list: one finished fixture of the
team and one unfinished fixture of two other teams. -/
theorem no_unfinished_fixtures_unknown_witness :
    calculate_fixture_difficulty 1
      [{ id := 1, team_h := 1, team_a := 2, team_h_difficulty := 4,
         team_a_difficulty := 2, finished := true },
       { id := 2, team_h := 3, team_a := 4, team_h_difficulty := 2,
         team_a_difficulty := 3 }] 5 =
      { avg_difficulty := 3, fixtures := [], rating := "Unknown" } :=
  no_unfinished_fixtures_unknown 1 _ 5 (by decide)

/-- C6: the difficulty buckets are monotone in the average, exactly 2.5 is
rated "Moderate" (not "Easy"), exactly 3.5 is rated "Hard", and for every
non-empty selection of upcoming fixtures `calculate_fixture_difficulty`
rates exactly the bucket of the average of the collected difficulties. -/
theorem difficulty_buckets_monotone_boundary :
    (∀ a b : ℚ, a ≤ b →
      ratingRank (classifyDifficulty a) ≤ ratingRank (classifyDifficulty b)) ∧
    classifyDifficulty (5/2) = "Moderate" ∧
    classifyDifficulty (5/2) ≠ "Easy" ∧
    classifyDifficulty (7/2) = "Hard" ∧
    (∀ tid fxs n, (calculate_fixture_difficulty tid fxs n).fixtures ≠ [] →
      (calculate_fixture_difficulty tid fxs n).rating =
        classifyDifficulty (listMean
          (((calculate_fixture_difficulty tid fxs n).fixtures).map
            (fun f => (f.difficulty : ℚ))))) := by
  have hmod : classifyDifficulty (5/2) = "Moderate" := by
    unfold classifyDifficulty
    rw [if_neg (by norm_num), if_pos (by norm_num)]
  refine ⟨?_, hmod, ?_, ?_, ?_⟩
  · intro a b hab
    unfold classifyDifficulty
    split_ifs <;> first | decide | (exfalso; linarith)
  · rw [hmod]; decide
  · unfold classifyDifficulty
    rw [if_neg (by norm_num), if_neg (by norm_num)]
  · intro tid fxs n h
    unfold calculate_fixture_difficulty at h ⊢
    by_cases he : (collectUpcoming tid n fxs []).isEmpty
    · simp [he] at h
    · simp [he, List.map_map]
      rfl

/-- Witness for C6: monotonicity applied at averages 2 and 3, and the
bucket law applied at a list producing average exactly 2.5. -/
theorem difficulty_buckets_monotone_boundary_witness :
    ratingRank (classifyDifficulty 2) ≤ ratingRank (classifyDifficulty 3) ∧
    (calculate_fixture_difficulty 1
      [{ id := 1, team_h := 1, team_a := 2, team_h_difficulty := 2,
         team_a_difficulty := 3 },
       { id := 2, team_h := 3, team_a := 1, team_h_difficulty := 2,
         team_a_difficulty := 3 }] 5).rating =
      classifyDifficulty (listMean
        (((calculate_fixture_difficulty 1
          [{ id := 1, team_h := 1, team_a := 2, team_h_difficulty := 2,
             team_a_difficulty := 3 },
           { id := 2, team_h := 3, team_a := 1, team_h_difficulty := 2,
             team_a_difficulty := 3 }] 5).fixtures).map
          (fun f => (f.difficulty : ℚ)))) :=
  ⟨difficulty_buckets_monotone_boundary.1 2 3 (by norm_num),
   difficulty_buckets_monotone_boundary.2.2.2.2 1 _ 5 (by decide)⟩

/-- C8: for every player whose cost is 0 the value analysis returns value
0.0 with rating "Poor" (the division is guarded by the `cost == 0` test, so
the function is total). -/
theorem zero_cost_value_poor (player : Player) (h : player.now_cost = 0) :
    (analyze_value player).points_per_million = 0 ∧
    (analyze_value player).value_rating = "Poor" ∧
    (analyze_value player).cost = 0 := by
  unfold analyze_value
  simp only [h]
  norm_num [pyRound2, roundHalfEven, classifyValue]

/-- Witness for C8 at a concrete free player. -/
theorem zero_cost_value_poor_witness :
    (analyze_value freePlayer).points_per_million = 0 ∧
    (analyze_value freePlayer).value_rating = "Poor" ∧
    (analyze_value freePlayer).cost = 0 :=
  zero_cost_value_poor freePlayer rfl

/-- Evaluation rule for `pyFloatRepr` at a non-negative value whose tenfold
is the integer `t`. -/
theorem pyFloatRepr_eq (q : ℚ) (t : ℤ) (h : q * 10 = (t : ℚ)) (h0 : 0 ≤ q) :
    pyFloatRepr q = toString (t / 10) ++ "." ++ toString (t % 10) := by
  unfold pyFloatRepr
  rw [h, Int.floor_intCast, if_neg (not_lt.mpr h0)]

/-- The reason string printed for form 2.9. -/
theorem pyFloatRepr_29 : pyFloatRepr (29/10) = "2.9" := by
  rw [pyFloatRepr_eq (29/10) 29 (by norm_num) (by norm_num)]
  decide

/-- C5: with the default threshold 3.0, a squad player with form 2.9,
available status and no chance-of-playing flag is reported with exactly the
one reason "Poor form (2.9)"; a player with injured status, form 5.0 and no
chance-of-playing flag is reported with exactly the one reason "Injured";
and "Injured" is among the reasons of an injured player regardless of
form. -/
theorem underperformer_reasons_spec (p q : Player)
    (hpf : p.form = 29/10) (hps : p.status = "a")
    (hpc : p.chance_of_playing_next_round = none)
    (hqf : q.form = 5) (hqs : q.status = "i")
    (hqc : q.chance_of_playing_next_round = none) :
    find_underperformers [p] = [(p, ["Poor form (2.9)"])] ∧
    find_underperformers [q] = [(q, ["Injured"])] ∧
    (∀ r : Player, r.status = "i" →
      "Injured" ∈ underperformerReasons 3 r) := by
  have hpr : underperformerReasons 3 p = ["Poor form (2.9)"] := by
    unfold underperformerReasons
    rw [hpf, hps, hpc]
    dsimp only
    rw [if_pos (by norm_num : (29/10 : ℚ) < 3), pyFloatRepr_29]
    simp
  have hqr : underperformerReasons 3 q = ["Injured"] := by
    unfold underperformerReasons
    rw [hqf, hqs, hqc]
    dsimp only
    rw [if_neg (by norm_num : ¬((5 : ℚ) < 3))]
    simp
  refine ⟨?_, ?_, ?_⟩
  · simp [find_underperformers, hpr]
  · simp [find_underperformers, hqr]
  · intro r hr
    unfold underperformerReasons
    rw [hr]
    simp

/-- Witness for C5 at two concrete players. -/
theorem underperformer_reasons_spec_witness :
    find_underperformers [mkTestPlayer 1 (29/10) "a"] =
      [(mkTestPlayer 1 (29/10) "a", ["Poor form (2.9)"])] ∧
    find_underperformers [mkTestPlayer 2 5 "i"] =
      [(mkTestPlayer 2 5 "i", ["Injured"])] :=
  ⟨(underperformer_reasons_spec (mkTestPlayer 1 (29/10) "a")
      (mkTestPlayer 2 5 "i") rfl rfl rfl rfl rfl rfl).1,
   (underperformer_reasons_spec (mkTestPlayer 1 (29/10) "a")
      (mkTestPlayer 2 5 "i") rfl rfl rfl rfl rfl rfl).2.1⟩

/-- A successful `get_fixtures` call has issued exactly two requests: the
fixtures endpoint and the bootstrap request of the embedded `get_teams`
call. -/
theorem get_fixtures_ok_trace (w : World) (q : Option ℤ) (fs : List Fixture)
    (h : (get_fixtures w q).1 = .ok fs) : (get_fixtures w q).2.length = 2 := by
  unfold get_fixtures at h ⊢
  cases hf : w.fixturesResp (fixturesQuery q) with
  | error e => simp [hf] at h
  | ok fd =>
    cases hb : w.bootstrapResp with
    | error e => simp [get_teams, get_bootstrap_static, hf, hb] at h
    | ok bs => simp [get_teams, get_bootstrap_static, hf, hb]

/-- A fully successful K-gameweek fixture composition has issued 2K
requests: for each gameweek one fixtures request plus one bootstrap
request. -/
theorem fetchFixturesSeq_trace_length (w : World) (gws : List ℤ)
    (h : ∃ fs, (fetchFixturesSeq w gws).1 = .ok fs) :
    (fetchFixturesSeq w gws).2.length = 2 * gws.length := by
  induction gws with
  | nil => simp [fetchFixturesSeq]
  | cons g rest ih =>
    obtain ⟨fs, hfs⟩ := h
    unfold fetchFixturesSeq at hfs ⊢
    cases hg : get_fixtures w (some g) with
    | mk r tr =>
      cases r with
      | error e => rw [hg] at hfs; simp at hfs
      | ok gfs =>
        cases hrest : fetchFixturesSeq w rest with
        | mk r2 tr2 =>
          cases r2 with
          | error e => rw [hg, hrest] at hfs; simp at hfs
          | ok rfs =>
            have h1 : tr.length = 2 := by
              have := get_fixtures_ok_trace w (some g) gfs
              rw [hg] at this
              exact this rfl
            have h2 : tr2.length = 2 * rest.length := by
              have := ih ⟨rfs, by rw [hrest]⟩
              rwa [hrest] at this
            simp [h1, h2]
            ring

/-- C2 counterexample: against a healthy provider, a single fixtures read
(not in the claim's exception list) issues two network requests, not one,
and the 3-gameweek composition issues 6 requests, not 3. -/
theorem gateway_request_count_counterexample :
    (get_fixtures sampleWorld (some 1)).2.length = 2 ∧
    (get_fixtures sampleWorld (some 1)).2.length ≠ 1 ∧
    (fetchFixturesSeq sampleWorld [1, 2, 3]).2.length = 6 ∧
    (fetchFixturesSeq sampleWorld [1, 2, 3]).2.length ≠ 3 := by
  refine ⟨rfl, by decide, rfl, by decide⟩

/-- C2 amended: every read operation of the gateway issues exactly one
underlying request, except the all-players operation (one bootstrap request
fanned out into one player record per raw element) and `get_fixtures`, which
issues two requests (the fixtures endpoint plus a second bootstrap request,
via `get_teams`, for team names) whenever the fixtures response arrives, so
the fixtures-for-next-K-gameweeks composition issues 2K sequential requests
when it succeeds. -/
theorem gateway_request_counts (w : World) (mid gw lid pne pst pid : ℤ)
    (ck : String) :
    (get_bootstrap_static w).2.length = 1 ∧
    (get_all_players w).2.length = 1 ∧
    (get_teams w).2.length = 1 ∧
    (get_current_gameweek w).2.length = 1 ∧
    (get_team_summary w mid).2.length = 1 ∧
    (get_manager_leagues w mid).2.length = 1 ∧
    (get_league_standings w lid pne pst).2.length = 1 ∧
    (get_team_picks w mid gw).2.length = 1 ∧
    (get_player_summary w pid).2.length = 1 ∧
    (validate_cookie w).2.length = 1 ∧
    (get_my_team w (some ck) mid).2.length = 1 ∧
    (∀ q fs, (get_fixtures w q).1 = .ok fs →
      (get_fixtures w q).2.length = 2) ∧
    (∀ bs, w.bootstrapResp = .ok bs →
      (get_all_players w).1 =
        .ok (bs.elements.map (mkPlayerFromElement bs.teams)) ∧
      ∀ l, (get_all_players w).1 = .ok l → l.length = bs.elements.length) ∧
    (∀ gws : List ℤ, (∃ fs, (fetchFixturesSeq w gws).1 = .ok fs) →
      (fetchFixturesSeq w gws).2.length = 2 * gws.length) := by
  refine ⟨rfl, ?_, ?_, ?_, ?_, ?_, rfl, ?_, rfl, ?_, rfl,
    fun q fs h => get_fixtures_ok_trace w q fs h, ?_,
    fun gws h => fetchFixturesSeq_trace_length w gws h⟩
  · unfold get_all_players
    cases hb : w.bootstrapResp <;> simp [get_bootstrap_static, hb]
  · unfold get_teams
    cases hb : w.bootstrapResp <;> simp [get_bootstrap_static, hb]
  · unfold get_current_gameweek
    cases hb : w.bootstrapResp <;> simp [get_bootstrap_static, hb]
  · unfold get_team_summary
    cases he : w.entryResp mid <;> simp [he]
  · unfold get_manager_leagues
    cases he : w.entryResp mid <;> simp [he]
  · unfold get_team_picks
    cases hp : w.picksResp mid gw <;> simp [hp]
  · unfold validate_cookie
    cases hm : w.meResp <;> simp [hm]
  · intro bs hb
    constructor
    · unfold get_all_players get_bootstrap_static
      rw [hb]
    · intro l hl
      unfold get_all_players get_bootstrap_static at hl
      rw [hb] at hl
      simp only [Except.ok.injEq] at hl
      rw [← hl]
      simp

/-- Witness for C2 amended, at the concrete healthy provider snapshot. -/
theorem gateway_request_counts_witness :
    (get_fixtures sampleWorld (some 5)).2.length = 2 ∧
    (fetchFixturesSeq sampleWorld [1, 2]).2.length = 4 := by
  have h := gateway_request_counts sampleWorld 1 2 3 1 1 4 "ck"
  refine ⟨h.2.2.2.2.2.2.2.2.2.2.2.1 (some 5) [] rfl, ?_⟩
  have h2 := h.2.2.2.2.2.2.2.2.2.2.2.2.2 [1, 2] ⟨[], rfl⟩
  simpa using h2

/-- The fetch node never writes any of the five derived analysis fields,
on success or on failure. -/
theorem data_fetcher_derived (w : World) (s : AgentState) :
    derivedFields (data_fetcher_node w s) = derivedFields s := by
  unfold data_fetcher_node
  repeat' split
  all_goals rfl

/-- The fetch node never writes `form_analysis`. -/
theorem data_fetcher_fa (w : World) (s : AgentState) :
    (data_fetcher_node w s).form_analysis = s.form_analysis := by
  unfold data_fetcher_node
  repeat' split
  all_goals rfl

/-- The fetch node either lands in its `except` branch (an error update that
changes nothing else) or succeeds with `error` cleared and the gameweek it
stores equal to the one `get_current_gameweek` returned. -/
theorem data_fetcher_cases (w : World) (s : AgentState) :
    (∃ e, data_fetcher_node w s =
        applyError s ("Failed to fetch data: " ++ e) "data_fetch_failed") ∨
    ((data_fetcher_node w s).error = none ∧
     ∃ gw, (get_current_gameweek w).1 = .ok gw ∧
       (data_fetcher_node w s).gameweek = gw) := by
  unfold data_fetcher_node
  repeat' split
  all_goals
    first
    | exact Or.inl ⟨_, rfl⟩
    | (refine Or.inr ⟨rfl, _, ?_, rfl⟩; assumption)

/-- A failed fetch leaves the squad player list untouched (the success
branch is the only one that writes it, and it clears `error`). -/
theorem data_fetcher_err_ctp (w : World) (s : AgentState)
    (h : (data_fetcher_node w s).error ≠ none) :
    (data_fetcher_node w s).current_team_players = s.current_team_players := by
  rcases data_fetcher_cases w s with ⟨e, hE⟩ | ⟨he, _⟩
  · rw [hE]
    rfl
  · exact absurd he h

/-- With the squad player list missing, the analyzer lands in its `except`
branch immediately. -/
theorem analyzer_ctp_none (s : AgentState)
    (h : s.current_team_players = none) :
    analyzer_node s =
      applyError s ("Analysis failed: " ++ noneNotIterable) "analysis_failed" := by
  unfold analyzer_node
  rw [h]

/-- The analyzer either lands in its `except` branch (an error update) or
succeeds with `error` cleared. -/
theorem analyzer_cases (s : AgentState) :
    (∃ m, analyzer_node s = applyError s m "analysis_failed") ∨
    (analyzer_node s).error = none := by
  unfold analyzer_node
  repeat' split
  all_goals first | exact Or.inl ⟨_, rfl⟩ | exact Or.inr rfl

/-- Whenever the analyzer leaves an error set, its whole update was an
`except`-branch update. -/
theorem analyzer_err (s : AgentState) (h : (analyzer_node s).error ≠ none) :
    ∃ m, analyzer_node s = applyError s m "analysis_failed" := by
  rcases analyzer_cases s with hE | he
  · exact hE
  · exact absurd he h

/-- With no form analysis in the state, the suggester lands in an `except`
branch before touching any derived field. -/
theorem suggester_fa_none (o : LLMOracle) (s : AgentState)
    (h : s.form_analysis = none) :
    ∃ m, suggester_node o s =
      applyError s ("Suggestion failed: " ++ m) "suggestion_failed" := by
  unfold suggester_node
  rw [h]
  cases o.initResult with
  | error m => exact ⟨m, rfl⟩
  | ok u =>
    cases s.current_team_players with
    | none => exact ⟨_, rfl⟩
    | some ctp =>
      cases s.team_summary with
      | none => exact ⟨_, rfl⟩
      | some ts => exact ⟨_, rfl⟩

/-- With the squad player list missing, the suggester lands in an `except`
branch at the squad-id set comprehension (or already at the LLM
construction). -/
theorem suggester_ctp_none (o : LLMOracle) (s : AgentState)
    (h : s.current_team_players = none) :
    ∃ m, suggester_node o s =
      applyError s ("Suggestion failed: " ++ m) "suggestion_failed" := by
  unfold suggester_node
  rw [h]
  cases o.initResult with
  | error m => exact ⟨m, rfl⟩
  | ok u => exact ⟨_, rfl⟩

/-- C10: when no bootstrap event is flagged current, `get_current_gameweek`
silently returns 1 instead of failing, and a successful fetch stage
therefore records gameweek 1 in the state (so picks lookup and the fixture
window proceed with gameweek 1). -/
theorem no_current_event_defaults_to_one (w : World) (bs : Bootstrap)
    (hb : w.bootstrapResp = .ok bs)
    (hnc : ∀ e ∈ bs.events, e.is_current = false) :
    (get_current_gameweek w).1 = .ok 1 ∧
    (∀ mid ck fb cs, (fetchState w mid ck fb cs).error = none →
      (fetchState w mid ck fb cs).gameweek = 1) := by
  have hfind : bs.events.find? (·.is_current) = none := by
    rw [List.find?_eq_none]
    intro x hx
    simp [hnc x hx]
  have hgw : (get_current_gameweek w).1 = .ok 1 := by
    unfold get_current_gameweek get_bootstrap_static
    rw [hb]
    simp [hfind]
  refine ⟨hgw, ?_⟩
  intro mid ck fb cs h
  unfold fetchState at h ⊢
  rcases data_fetcher_cases w (initialState mid ck fb cs) with ⟨e, hE⟩ | hOk
  · rw [hE] at h
    simp [applyError] at h
  · obtain ⟨_, gw, hgw2, hgws⟩ := hOk
    rw [hgw] at hgw2
    injection hgw2 with hgw3
    rw [hgws, ← hgw3]

/-- Witness for C10: a provider snapshot whose only event is not current;
the gameweek read returns 1 and a successful fetch stores gameweek 1. -/
theorem no_current_event_defaults_to_one_witness :
    (get_current_gameweek noCurrentWorld).1 = .ok 1 ∧
    (fetchState noCurrentWorld 1 "c" none none).gameweek = 1 :=
  ⟨(no_current_event_defaults_to_one noCurrentWorld noCurrentBootstrap rfl
      (by decide)).1,
   (no_current_event_defaults_to_one noCurrentWorld noCurrentBootstrap rfl
      (by decide)).2 1 "c" none none rfl⟩

/-- C3: in every pipeline run, once a failed stage has set the error field,
no later stage mutates the derived analysis fields (`form_analysis`,
`fixture_analysis`, `value_analysis`, `team_weaknesses`,
`transfer_suggestions`). -/
theorem error_freezes_derived_fields (w : World) (o : LLMOracle) (mid : ℤ)
    (ck : String) (fb : Option String) (cs : Option (List Suggestion)) :
    ((fetchState w mid ck fb cs).error ≠ none →
      derivedFields (analyzeState w mid ck fb cs) =
          derivedFields (fetchState w mid ck fb cs) ∧
      derivedFields (suggestState w o mid ck fb cs) =
          derivedFields (fetchState w mid ck fb cs)) ∧
    ((analyzeState w mid ck fb cs).error ≠ none →
      derivedFields (suggestState w o mid ck fb cs) =
          derivedFields (analyzeState w mid ck fb cs)) := by
  have hfa1 : (fetchState w mid ck fb cs).form_analysis = none :=
    (data_fetcher_fa w (initialState mid ck fb cs)).trans rfl
  constructor
  · intro h1
    have hctp : (fetchState w mid ck fb cs).current_team_players = none :=
      (data_fetcher_err_ctp w _ h1).trans rfl
    have h2 : analyzeState w mid ck fb cs =
        applyError (fetchState w mid ck fb cs)
          ("Analysis failed: " ++ noneNotIterable) "analysis_failed" :=
      analyzer_ctp_none _ hctp
    have hfa2 : (analyzeState w mid ck fb cs).form_analysis = none := by
      rw [h2]
      exact hfa1
    obtain ⟨m, h3⟩ := suggester_fa_none o _ hfa2
    refine ⟨by rw [h2]; rfl, ?_⟩
    show derivedFields (suggester_node o (analyzeState w mid ck fb cs)) = _
    rw [h3, h2]
    rfl
  · intro h2
    obtain ⟨m, h4⟩ := analyzer_err _ h2
    have hfa2 : (analyzeState w mid ck fb cs).form_analysis = none := by
      show (analyzer_node (fetchState w mid ck fb cs)).form_analysis = none
      rw [h4]
      exact hfa1
    obtain ⟨m2, h5⟩ := suggester_fa_none o _ hfa2
    show derivedFields (suggester_node o (analyzeState w mid ck fb cs)) = _
    rw [h5]
    rfl

/-- Witness for C3 at a concrete failing fetch: the derived fields after
analyze and after suggest equal those after the failed fetch. -/
theorem error_freezes_derived_fields_witness :
    derivedFields (analyzeState failWorld 1 "c" none none) =
        derivedFields (fetchState failWorld 1 "c" none none) ∧
    derivedFields (suggestState failWorld stubOracle 1 "c" none none) =
        derivedFields (fetchState failWorld 1 "c" none none) :=
  (error_freezes_derived_fields failWorld stubOracle 1 "c" none none).1
    (by decide)

/-- C1 amended: when the fetch stage fails, the run still returns
`success = false`, but the graph has no conditional edges, so the analyze
and suggest stages are both invoked anyway; each fails on the missing data
and overwrites `error`, and the returned error is the suggest stage's
`Suggestion failed: ...`, not the fetch stage's message. -/
theorem fetch_failure_amended (w : World) (o : LLMOracle) (mid : ℤ)
    (ck : String) (fb : Option String) (cs : Option (List Suggestion))
    (h : (fetchState w mid ck fb cs).error ≠ none) :
    (run_suggestion_workflow w o mid ck fb cs).success = false ∧
    (∃ m, (run_suggestion_workflow w o mid ck fb cs).error =
        some ("Suggestion failed: " ++ m)) ∧
    (analyzeState w mid ck fb cs).step_completed = "analysis_failed" ∧
    (suggestState w o mid ck fb cs).step_completed = "suggestion_failed" ∧
    (run_suggestion_workflow w o mid ck fb cs).suggestions = none := by
  have hctp1 : (fetchState w mid ck fb cs).current_team_players = none :=
    (data_fetcher_err_ctp w _ h).trans rfl
  have h2 : analyzeState w mid ck fb cs =
      applyError (fetchState w mid ck fb cs)
        ("Analysis failed: " ++ noneNotIterable) "analysis_failed" :=
    analyzer_ctp_none _ hctp1
  have hctp2 : (analyzeState w mid ck fb cs).current_team_players = none := by
    rw [h2]
    exact hctp1
  obtain ⟨m, h3⟩ := suggester_ctp_none o _ hctp2
  have herr : (suggestState w o mid ck fb cs).error =
      some ("Suggestion failed: " ++ m) := by
    show (suggester_node o (analyzeState w mid ck fb cs)).error = _
    rw [h3]
    rfl
  have hne : ("Suggestion failed: " ++ m) ≠ "" := by
    intro hcon
    have hlen := congrArg String.length hcon
    rw [String.length_append] at hlen
    have h19 : ("Suggestion failed: ").length = 19 := rfl
    have h0 : ("" : String).length = 0 := rfl
    omega
  have hwf : run_suggestion_workflow w o mid ck fb cs =
      { success := false, error := some ("Suggestion failed: " ++ m) } := by
    unfold run_suggestion_workflow
    dsimp only
    rw [herr]
    dsimp only
    rw [if_neg hne]
  refine ⟨by rw [hwf], ⟨m, by rw [hwf]⟩, by rw [h2]; rfl, ?_, by rw [hwf]⟩
  show (suggester_node o (analyzeState w mid ck fb cs)).step_completed = _
  rw [h3]
  rfl

/-- Witness for C1 amended, at a concrete failing provider. -/
theorem fetch_failure_amended_witness :
    (run_suggestion_workflow failWorld stubOracle 2 "ck" none none).success =
        false ∧
    (∃ m, (run_suggestion_workflow failWorld stubOracle 2 "ck" none
        none).error = some ("Suggestion failed: " ++ m)) :=
  ⟨(fetch_failure_amended failWorld stubOracle 2 "ck" none none
      (by decide)).1,
   (fetch_failure_amended failWorld stubOracle 2 "ck" none none
      (by decide)).2.1⟩

/-- C1 counterexample: with a provider whose bootstrap request fails, the
fetch stage records `Failed to fetch data: boom`, but the run's returned
error is the suggest stage's `Suggestion failed: ...` (the claim's stated
error is overwritten) and both later stages were invoked, as their
`step_completed` tags show. -/
theorem fetch_failure_counterexample :
    (fetchState failWorld 1 "c" none none).error =
        some "Failed to fetch data: boom" ∧
    (run_suggestion_workflow failWorld stubOracle 1 "c" none none).success =
        false ∧
    (run_suggestion_workflow failWorld stubOracle 1 "c" none none).error =
        some ("Suggestion failed: " ++ noneNotIterable) ∧
    (run_suggestion_workflow failWorld stubOracle 1 "c" none none).error ≠
        (fetchState failWorld 1 "c" none none).error ∧
    (analyzeState failWorld 1 "c" none none).step_completed =
        "analysis_failed" ∧
    (suggestState failWorld stubOracle 1 "c" none none).step_completed =
        "suggestion_failed" := by
  refine ⟨rfl, rfl, rfl, ?_, rfl, rfl⟩
  decide

/-- Any player below the form threshold gets a non-empty reason list. -/
theorem underperformerReasons_ne_nil (t : ℚ) (p : Player) (h : p.form < t) :
    underperformerReasons t p ≠ [] := by
  unfold underperformerReasons
  dsimp only
  rw [if_pos h]
  simp

/-- When every squad player at or above the form threshold has no reason at
all to be flagged, the underperformer list counts exactly the poor-form
players. -/
theorem find_underperformers_length (ps : List Player)
    (h : ∀ p ∈ ps, ¬(p.form < 3) → underperformerReasons 3 p = []) :
    (find_underperformers ps 3).length =
      (ps.filter (fun p => p.form < 3)).length := by
  induction ps with
  | nil => rfl
  | cons p rest ih =>
    have hrest := fun q hq => h q (List.mem_cons_of_mem _ hq)
    have ih2 := ih hrest
    by_cases hp : p.form < 3
    · have hne := underperformerReasons_ne_nil 3 p hp
      have hie : (underperformerReasons 3 p).isEmpty = false := by
        cases hc : underperformerReasons 3 p with
        | nil => exact absurd hc hne
        | cons a as => rfl
      simp only [find_underperformers] at ih2 ⊢
      rw [List.filterMap_cons, List.filter_cons]
      simp [hie, hp]
      simpa using ih2
    · have hz := h p (List.mem_cons_self _ _) hp
      simp only [find_underperformers] at ih2 ⊢
      rw [List.filterMap_cons, List.filter_cons]
      simp [hz, hp]
      simpa using ih2

/-- C9: for every squad of 15 known players in which exactly the six
poor-form players are flagged (the other nine are healthy), the analyze
stage's weakness list contains the exact string
"6 players with poor form or injuries". -/
theorem six_poor_form_weakness (s : AgentState) (ps ap : List Player)
    (fx : List Fixture)
    (hctp : s.current_team_players = some ps)
    (hap : s.all_players = some ap) (hfx : s.fixtures = some fx)
    (hlen : ps.length = 15)
    (hsix : (ps.filter (fun p => p.form < 3)).length = 6)
    (hok : ∀ p ∈ ps, ¬(p.form < 3) → underperformerReasons 3 p = []) :
    ∃ ws, (analyzer_node s).team_weaknesses = some ws ∧
      "6 players with poor form or injuries" ∈ ws := by
  have hcount : (find_underperformers ps 3).length = 6 :=
    (find_underperformers_length ps hok).trans hsix
  have hne : ps.isEmpty = false := by
    cases hc : ps with
    | nil => rw [hc] at hlen; simp at hlen
    | cons a as => rfl
  unfold analyzer_node
  simp only [hctp, hap, hfx, hne, Bool.false_eq_true, if_false, hcount]
  refine ⟨_, rfl, ?_⟩
  have h6 : toString (6 : ℕ) ++ " players with poor form or injuries" =
      "6 players with poor form or injuries" := by decide
  apply List.mem_append_left
  apply List.mem_append_left
  simp [h6]

/-- Witness for C9 at the concrete 15-man squad with six poor-form
players. -/
theorem six_poor_form_weakness_witness :
    ∃ ws, (analyzer_node c9State).team_weaknesses = some ws ∧
      "6 players with poor form or injuries" ∈ ws :=
  six_poor_form_weakness c9State c9Squad [] [] rfl rfl rfl (by decide)
    (by decide) (by decide)

/-- C4: for every parsed suggestion list and every 15-man squad, the
validation filter of the suggester removes exactly the suggestions whose
incoming player id is the id of a squad member (bench included): the output
is a sublist of the input (order preserved), it contains no squad-violating
suggestion, every clean suggestion of the input is kept, every violating one
is dropped, and each clean suggestion keeps its multiplicity (content
unaffected). -/
theorem suggestion_validation_filter (ctp : List Player)
    (sugg : List Suggestion) (_hsquad : ctp.length = 15) :
    List.Sublist (validateSuggestions (ctp.map (fun p => p.id)) sugg) sugg ∧
    (∀ s ∈ validateSuggestions (ctp.map (fun p => p.id)) sugg,
      ∀ i, s.player_in_id = some i → i ∉ ctp.map (fun p => p.id)) ∧
    (∀ s ∈ sugg,
      (∀ i, s.player_in_id = some i → i ∉ ctp.map (fun p => p.id)) →
      s ∈ validateSuggestions (ctp.map (fun p => p.id)) sugg) ∧
    (∀ s ∈ sugg, (∃ p ∈ ctp, s.player_in_id = some p.id) →
      s ∉ validateSuggestions (ctp.map (fun p => p.id)) sugg) ∧
    (∀ s : Suggestion,
      (∀ i, s.player_in_id = some i → i ∉ ctp.map (fun p => p.id)) →
      (validateSuggestions (ctp.map (fun p => p.id)) sugg).count s =
        sugg.count s) := by
  refine ⟨List.filter_sublist _, ?_, ?_, ?_, ?_⟩
  · intro s hs i hi
    have hp := (List.mem_filter.mp hs).2
    rw [hi] at hp
    simpa using hp
  · intro s hs h
    refine List.mem_filter.mpr ⟨hs, ?_⟩
    cases hpi : s.player_in_id with
    | none => rfl
    | some i => simpa using h i hpi
  · rintro s hs ⟨p, hp, hpi⟩ hmem
    have hval := (List.mem_filter.mp hmem).2
    rw [hpi] at hval
    have : p.id ∉ ctp.map (fun q => q.id) := by simpa using hval
    exact this (List.mem_map_of_mem _ hp)
  · intro s h
    apply List.count_filter
    cases hpi : s.player_in_id with
    | none => rfl
    | some i => simpa using h i hpi

/-- Witness for C4: on a concrete squad of 15 players with ids 1..15 and a
three-suggestion list whose middle entry proposes incoming player 3, the
filter keeps the first and last suggestions in order and drops the middle
one. -/
theorem suggestion_validation_filter_witness :
    List.Sublist
      (validateSuggestions
        (((List.range 15).map (fun i => mkTestPlayer (i + 1) 5 "a")).map
          (fun p => p.id)) [sGood1, sBad, sGood2])
      [sGood1, sBad, sGood2] ∧
    sBad ∉ validateSuggestions
      (((List.range 15).map (fun i => mkTestPlayer (i + 1) 5 "a")).map
        (fun p => p.id)) [sGood1, sBad, sGood2] ∧
    sGood1 ∈ validateSuggestions
      (((List.range 15).map (fun i => mkTestPlayer (i + 1) 5 "a")).map
        (fun p => p.id)) [sGood1, sBad, sGood2] := by
  have h := suggestion_validation_filter
    ((List.range 15).map (fun i => mkTestPlayer (i + 1) 5 "a"))
    [sGood1, sBad, sGood2] (by decide)
  refine ⟨h.1, ?_, ?_⟩
  · exact h.2.2.2.1 sBad (by decide)
      ⟨mkTestPlayer 3 5 "a", by decide, by decide⟩
  · exact h.2.2.1 sGood1 (by decide) (by decide)

end FPL
